import Mathlib

/-!
Verification development for the kpi-dashboard backend.

The definitions below are a shallow embedding of the Python source:
  * backend/app/schemas.py        — RoleEnum, MarketingDataCreate/Update
  * backend/app/models.py         — User row, MarketingData row, AuditLog row,
                                    the composite index declaration
  * backend/app/auth.py           — verify_token, get_current_user,
                                    require_role, can_access_setor
  * backend/app/services/auth_service.py — AuthService.check_permission,
                                    AuthService.can_access_setor,
                                    AuthService.deactivate_user
  * backend/app/services/queue_service.py — QueueService.add_kpi_job
  * backend/app/routers/marketing.py — check_duplicate, create_audit_log and
                                    the create/update/delete/stats endpoints

Conventions: Python float fields are modelled as rationals, dates and
timestamps as natural numbers, SQL rows as Lean structures, the database
session as explicit state passing with one value per committed transaction,
and every Python function that can raise returns Except (the raised error)
or Option.  String lowercasing matches Python str.lower on the ASCII
sector/role values the code uses.
-/

/-! ## Roles (schemas.RoleEnum) -/

inductive RoleEnum where
  | funcionario
  | gestor
  | diretor
deriving DecidableEq, BEq, Repr

/-- Conversion of a stored role string to the enum.  Models the Python call
RoleEnum(value), which raises ValueError on an unrecognized string; here the
raising call is the None case, handled at each call site exactly the way the
source handles (or fails to handle) the exception. -/
def roleEnumOf? (s : String) : Option RoleEnum :=
  if s = "Funcionário" then some RoleEnum.funcionario
  else if s = "Gestor" then some RoleEnum.gestor
  else if s = "Diretor" then some RoleEnum.diretor
  else none

/-! ## User rows (models.py, class User)

The mapped columns of the users table.  creation/update timestamps are
server defaults that no claim touches and are omitted. -/

structure UserRow where
  id : Nat
  email : String
  nome : String
  cargo : Option String
  setor : Option String
  role : String
  password_hash : String
  ativo : Bool
deriving DecidableEq, Repr

/-- Errors raised by Python code and not caught inside the modelled
function. -/
inductive PyError where
  | valueError
  | attributeError
deriving DecidableEq, Repr

/-- HTTPException as raised by the FastAPI layer. -/
inductive HttpError where
  | unauthorized (detail : String)
  | forbidden (detail : String)
  | notFound (detail : String)
deriving DecidableEq, Repr

deriving instance DecidableEq for Except

/-! ## Access decision engine, route-level (auth.py) -/

/-- Python str.lower as the code applies it to sector strings: the sector
names compared by this backend are ASCII (the accented characters that occur,
as in "Pedagógico", are already lowercase), so ASCII lowercasing is the
faithful model. -/
def py_lower (s : String) : String :=
  String.mk (s.data.map (fun c =>
    if 65 ≤ c.toNat && c.toNat ≤ 90 then Char.ofNat (c.toNat + 32) else c))

/-- auth.py lines 159-178, can_access_setor.  The Funcionário branch is the
Python expression `user.setor and user.setor.lower() == setor.lower()`: a
null or empty sector string is falsy and short-circuits to a denial. -/
def can_access_setor (user : UserRow) (setor : String) : Bool :=
  match roleEnumOf? user.role with
  | none => false
  | some RoleEnum.diretor => true
  | some RoleEnum.gestor => true
  | some RoleEnum.funcionario =>
      match user.setor with
      | none => false
      | some s => if s == "" then false else py_lower s == py_lower setor

/-- Integer levels of the role_hierarchy dict in auth.py require_role. -/
def role_rank : RoleEnum → Nat
  | RoleEnum.funcionario => 1
  | RoleEnum.gestor => 2
  | RoleEnum.diretor => 3

/-- Modelled from the spec: the ranking the claim states, Employee=1 <
Manager=2 < Director=3 with every unrecognized role string at rank 0.  Used
only on the specification side of the refinement statement for the role
check. -/
def spec_rank (role : String) : Nat :=
  match roleEnumOf? role with
  | none => 0
  | some r => role_rank r

/-- auth.py lines 119-146, the checker returned by require_role: an
unrecognized user role is caught and turned into a 403, then the hierarchy
levels are compared. -/
def require_role_check (required : RoleEnum) (user : UserRow) : Except HttpError UserRow :=
  match roleEnumOf? user.role with
  | none => Except.error (HttpError.forbidden "Role do usuário inválida")
  | some r =>
      if role_rank r < role_rank required then
        Except.error (HttpError.forbidden "Acesso negado")
      else Except.ok user

/-! ## Access decision engine, service-level (services/auth_service.py) -/

/-- auth_service.py lines 177-200, AuthService.check_permission.  The call
UserRole(user.role) on line 186 is not wrapped in try/except, so an
unrecognized role string is an uncaught ValueError. -/
def check_permission (user : UserRow) (required : RoleEnum) : Except PyError Bool :=
  match roleEnumOf? user.role with
  | none => Except.error PyError.valueError
  | some r =>
      if r == RoleEnum.diretor then Except.ok true
      else if r == RoleEnum.gestor &&
          (required == RoleEnum.gestor || required == RoleEnum.funcionario) then
        Except.ok true
      else if r == RoleEnum.funcionario && required == RoleEnum.funcionario then
        Except.ok true
      else Except.ok false

/-- auth_service.py lines 202-213, AuthService.can_access_setor.  Uncaught
ValueError on an unrecognized role; `user.setor.lower()` on a null sector is
an uncaught AttributeError; every non-Director role falls through to the
case-insensitive comparison with the user's own sector. -/
def service_can_access_setor (user : UserRow) (setor : String) : Except PyError Bool :=
  match roleEnumOf? user.role with
  | none => Except.error PyError.valueError
  | some RoleEnum.diretor => Except.ok true
  | some _ =>
      match user.setor with
      | none => Except.error PyError.attributeError
      | some s => Except.ok (py_lower s == py_lower setor)

/-! ## Credential and token manager (auth.py) -/

/-- The claim set of a decoded JWT, as read by the code (payload.get("sub"),
payload.get("role")). -/
structure TokenPayload where
  sub : Option String
  role : Option String
deriving DecidableEq, Repr

/-- Outcome of jose jwt.decode on a presented token: the decoded payload, or
one of the three JWTError causes (ExpiredSignatureError is a JWTError
subclass, as are signature and format errors). -/
inductive TokenDecode where
  | ok (payload : TokenPayload)
  | expired
  | invalidSignature
  | malformed
deriving DecidableEq, Repr

/-- auth.py lines 51-61, verify_token: every JWTError is caught and mapped
to None, and a payload without a subject is also mapped to None. -/
def verify_token (t : TokenDecode) : Option TokenPayload :=
  match t with
  | TokenDecode.ok payload =>
      match payload.sub with
      | none => none
      | some _ => some payload
  | TokenDecode.expired => none
  | TokenDecode.invalidSignature => none
  | TokenDecode.malformed => none

/-- auth.py lines 64-66, get_user_by_email. -/
def get_user_by_email (db : List UserRow) (email : String) : Option UserRow :=
  db.find? (fun u => u.email == email)

/-- auth.py lines 81-111, get_current_user: verify the token, extract the
subject, look the user up, reject missing/invalid tokens and inactive users
with a 401. -/
def get_current_user (db : List UserRow) (t : TokenDecode) : Except HttpError UserRow :=
  match verify_token t with
  | none => Except.error (HttpError.unauthorized "Credenciais inválidas")
  | some payload =>
      match payload.sub with
      | none => Except.error (HttpError.unauthorized "Credenciais inválidas")
      | some email =>
          match get_user_by_email db email with
          | none => Except.error (HttpError.unauthorized "Credenciais inválidas")
          | some user =>
              if user.ativo then Except.ok user
              else Except.error (HttpError.unauthorized "Usuário inativo")

/-! ## Deactivation (services/auth_service.py lines 277-298) -/

/-- The in-memory ORM object after `user.is_active = False`: the mapped row
(models.User has the column `ativo`, not `is_active`) plus the plain Python
attribute the assignment creates.  Committing flushes mapped columns only,
so the rows list returned below is the users table after the commit. -/
structure DeactivatedObj where
  row : UserRow
  is_active : Bool
deriving DecidableEq, Repr

inductive DeactivateOutcome where
  | roleFault
  | permissionDenied
  | notFound
  | selfForbidden
  | success (obj : DeactivatedObj)
deriving DecidableEq, Repr

/-- auth_service.py lines 173-175, AuthService.get_user_by_id. -/
def get_user_by_id (db : List UserRow) (userId : Nat) : Option UserRow :=
  db.find? (fun u => u.id == userId)

/-- auth_service.py lines 277-298, AuthService.deactivate_user, in source
order: Director permission first (propagating check_permission's uncaught
ValueError), then the id lookup, then the self check, then the assignment
`user.is_active = False` and the commit.  The second component is the users
table after the call: `is_active` is not a mapped column of models.User, so
the commit persists no change in every outcome. -/
def deactivate_user (db : List UserRow) (userId : Nat) (admin : UserRow) :
    DeactivateOutcome × List UserRow :=
  match check_permission admin RoleEnum.diretor with
  | Except.error _ => (DeactivateOutcome.roleFault, db)
  | Except.ok false => (DeactivateOutcome.permissionDenied, db)
  | Except.ok true =>
      match get_user_by_id db userId with
      | none => (DeactivateOutcome.notFound, db)
      | some target =>
          if target.id == admin.id then (DeactivateOutcome.selfForbidden, db)
          else (DeactivateOutcome.success { row := target, is_active := false }, db)

/-! ## Marketing rows and schemas (models.py, schemas.py) -/

/-- models.py lines 27-54, the mapped columns of marketing_data.  The
reference date is a day number, floats are rationals, created_at/updated_at
are clock values supplied by the caller. -/
structure MarketingRec where
  id : Nat
  data_ref : Nat
  canal : String
  campanha : String
  investimento : ℚ
  impressoes : Int
  cliques : Int
  conversoes : Int
  leads : Int
  vendas : Int
  receita : ℚ
  user_id : Nat
  created_at : Nat
  updated_at : Nat
deriving DecidableEq, Repr

/-- schemas.py lines 64-78, MarketingDataCreate (validated draft; the ge=0
bounds are request validation, out of scope here). -/
structure MarketingDataCreate where
  data_ref : Nat
  canal : String
  campanha : String
  investimento : ℚ
  impressoes : Int := 0
  cliques : Int := 0
  conversoes : Int := 0
  leads : Int := 0
  vendas : Int := 0
  receita : ℚ := 0
deriving DecidableEq, Repr

/-- schemas.py lines 81-90, MarketingDataUpdate.  A none field models a
field absent from the request body (pydantic model_dump(exclude_unset=True)
drops it); data_ref is not part of the schema at all.  The schema does
include canal and campanha. -/
structure MarketingDataUpdate where
  canal : Option String := none
  campanha : Option String := none
  investimento : Option ℚ := none
  impressoes : Option Int := none
  cliques : Option Int := none
  conversoes : Option Int := none
  leads : Option Int := none
  vendas : Option Int := none
  receita : Option ℚ := none
deriving DecidableEq, Repr

/-- The dict built at marketing.py lines 288-298 for the UPDATE audit
before-image. -/
structure UpdateBeforeSnap where
  canal : String
  campanha : String
  investimento : ℚ
  impressoes : Int
  cliques : Int
  conversoes : Int
  leads : Int
  vendas : Int
  receita : ℚ
deriving DecidableEq, Repr

/-- The dict built at marketing.py lines 347-352 for the DELETE audit
before-image. -/
structure DeleteBeforeSnap where
  data_ref : Nat
  canal : String
  campanha : String
  investimento : ℚ
deriving DecidableEq, Repr

/-- The JSON-serialized snapshot stored in an audit row, kept structured
here instead of as a json.dumps string. -/
inductive AuditPayload where
  | createAfter (draft : MarketingDataCreate)
  | updateBefore (snap : UpdateBeforeSnap)
  | updatePatch (patch : MarketingDataUpdate)
  | deleteBefore (snap : DeleteBeforeSnap)
deriving DecidableEq, Repr

/-- models.py lines 203-224, the mapped columns of audit_log that the
marketing router writes (ip_address and user_agent are always absent). -/
structure AuditRec where
  user_id : Nat
  acao : String
  tabela : String
  registro_id : Option Nat
  dados_antes : Option AuditPayload
  dados_depois : Option AuditPayload
  timestamp : Nat
deriving DecidableEq, Repr

/-- marketing.py lines 52-71, create_audit_log: builds the AuditLog row and
adds it to the session (committed by the caller). -/
def create_audit_log (user : UserRow) (acao tabela : String) (registroId : Option Nat)
    (dadosAntes dadosDepois : Option AuditPayload) (t : Nat) : AuditRec :=
  { user_id := user.id, acao := acao, tabela := tabela, registro_id := registroId,
    dados_antes := dadosAntes, dados_depois := dadosDepois, timestamp := t }

/-! ## Storage layer -/

/-- An index declaration of the relational schema. -/
structure IndexDecl where
  name : String
  columns : List String
  unique : Bool
deriving DecidableEq, Repr

/-- models.py lines 51-54: Index('idx_marketing_unique', 'data_ref',
'canal', 'campanha') inside MarketingData.__table_args__.  SQLAlchemy Index
is non-unique unless unique=True is passed, and it is not passed. -/
def idx_marketing_unique : IndexDecl :=
  { name := "idx_marketing_unique"
    columns := ["data_ref", "canal", "campanha"]
    unique := false }

/-- The state of the marketing tables at one committed transaction boundary:
the marketing_data rows, the audit_log rows, and the next autoincrement
primary key. -/
structure MarketingDb where
  records : List MarketingRec
  audit : List AuditRec
  nextId : Nat
deriving DecidableEq, Repr

def sameNaturalKey (a b : MarketingRec) : Bool :=
  a.data_ref == b.data_ref && a.canal == b.canal && a.campanha == b.campanha

/-- An insert commit at the storage layer: the relational store rejects the
row (IntegrityError, modelled as none) exactly when a unique index on the
natural-key columns already holds a row with the same key tuple; a
non-unique index constrains nothing. -/
def storage_insert (idx : IndexDecl) (db : MarketingDb) (r : MarketingRec) :
    Option MarketingDb :=
  if idx.unique && db.records.any (fun x => sameNaturalKey x r) then none
  else some { db with records := db.records ++ [r], nextId := db.nextId + 1 }

/-- marketing.py lines 74-93, check_duplicate: the application-level
pre-check.  `if exclude_id:` is Python truthiness, so both None and 0 skip
the exclusion filter. -/
def check_duplicate (db : MarketingDb) (dataRef : Nat) (canal campanha : String)
    (excludeId : Option Nat) : Bool :=
  let base := db.records.filter
    (fun r => r.data_ref == dataRef && r.canal == canal && r.campanha == campanha)
  let q := match excludeId with
    | some i => if i != 0 then base.filter (fun (r : MarketingRec) => r.id != i) else base
    | none => base
  !q.isEmpty

/-! ## Queue service (services/queue_service.py) -/

/-- The BullMQ job payload built by add_kpi_job, lines 23-64 (the None
fields are dropped from job_data before serialization; dateRef is the
stringified reference date, kept as the day number here). -/
structure KpiJob where
  name : String
  sector : String
  action : String
  dataId : Option Nat
  dateRef : Option Nat
  userId : Option Nat
  jobId : String
  attempts : Nat
deriving DecidableEq, Repr

/-- queue_service.py lines 23-64, QueueService.add_kpi_job: the job pushed
onto bull:kpi-processing:wait.  `data_id or 'batch'` is Python truthiness
(None and 0 both give 'batch'). -/
def add_kpi_job (sector action : String) (dataId : Option Nat) (dateRef : Option Nat)
    (userId : Option Nat) : KpiJob :=
  { name := "calculate-kpi", sector := sector, action := action, dataId := dataId,
    dateRef := dateRef, userId := userId,
    jobId := sector ++ "-" ++ action ++ "-" ++
      (match dataId with
       | some i => if i != 0 then toString i else "batch"
       | none => "batch"),
    attempts := 3 }

/-! ## The audited write pipeline (routers/marketing.py) -/

inductive MErr where
  | conflict
  | notFound
  | integrityError
deriving DecidableEq, Repr

/-- marketing.py lines 98-155, create_marketing_data, after the
require_marketing_access guard.  On success the result carries, in order:
the state committed by the first db.commit() (line 129, the record alone),
the state committed by the second db.commit() (line 141, the audit row),
the Redis queue after the enqueue attempt, and the response record.
enqueueOk=false is QueueService.add_kpi_job raising: the except clause at
lines 152-153 prints and swallows it, so neither commit is rolled back and
the response is unchanged. -/
def create_marketing_data (db : MarketingDb) (queue : List KpiJob)
    (draft : MarketingDataCreate) (actor : UserRow) (t : Nat) (enqueueOk : Bool) :
    Except MErr (MarketingDb × MarketingDb × List KpiJob × MarketingRec) :=
  if check_duplicate db draft.data_ref draft.canal draft.campanha none then
    Except.error MErr.conflict
  else
    let r : MarketingRec :=
      { id := db.nextId, data_ref := draft.data_ref, canal := draft.canal,
        campanha := draft.campanha, investimento := draft.investimento,
        impressoes := draft.impressoes, cliques := draft.cliques,
        conversoes := draft.conversoes, leads := draft.leads, vendas := draft.vendas,
        receita := draft.receita, user_id := actor.id, created_at := t, updated_at := t }
    match storage_insert idx_marketing_unique db r with
    | none => Except.error MErr.integrityError
    | some db1 =>
        let audit := create_audit_log actor "CREATE" "marketing_data" (some r.id)
          none (some (AuditPayload.createAfter draft)) t
        let db2 := { db1 with audit := db1.audit ++ [audit] }
        let queue2 :=
          if enqueueOk then
            queue ++ [add_kpi_job "marketing" "calculate" (some r.id) (some r.data_ref)
              (some actor.id)]
          else queue
        Except.ok (db1, db2, queue2, r)

/-- The field application loop at marketing.py lines 300-306: setattr for
exactly the fields present in the patch, then the updated_at stamp. -/
def apply_update_fields (r : MarketingRec) (p : MarketingDataUpdate) (t : Nat) :
    MarketingRec :=
  { r with
    canal := p.canal.getD r.canal,
    campanha := p.campanha.getD r.campanha,
    investimento := p.investimento.getD r.investimento,
    impressoes := p.impressoes.getD r.impressoes,
    cliques := p.cliques.getD r.cliques,
    conversoes := p.conversoes.getD r.conversoes,
    leads := p.leads.getD r.leads,
    vendas := p.vendas.getD r.vendas,
    receita := p.receita.getD r.receita,
    updated_at := t }

def update_before_snapshot (r : MarketingRec) : UpdateBeforeSnap :=
  { canal := r.canal, campanha := r.campanha, investimento := r.investimento,
    impressoes := r.impressoes, cliques := r.cliques, conversoes := r.conversoes,
    leads := r.leads, vendas := r.vendas, receita := r.receita }

/-- marketing.py lines 265-323, update_marketing_data: load by id (404 when
absent), snapshot, apply only the supplied fields, stamp updated_at, commit
(line 308), then write the UPDATE audit row and commit again (line 321).
No duplicate check of the natural key is made anywhere on this path.  On
success: the state after the first commit, the state after the second, and
the response record. -/
def update_marketing_data (db : MarketingDb) (dataId : Nat) (p : MarketingDataUpdate)
    (actor : UserRow) (t : Nat) :
    Except MErr (MarketingDb × MarketingDb × MarketingRec) :=
  match db.records.find? (fun r => r.id == dataId) with
  | none => Except.error MErr.notFound
  | some r0 =>
      let r1 := apply_update_fields r0 p t
      let db1 := { db with
        records := db.records.map (fun x => if x.id == dataId then r1 else x) }
      let audit := create_audit_log actor "UPDATE" "marketing_data" (some dataId)
        (some (AuditPayload.updateBefore (update_before_snapshot r0)))
        (some (AuditPayload.updatePatch p)) t
      let db2 := { db1 with audit := db1.audit ++ [audit] }
      Except.ok (db1, db2, r1)

def delete_before_snapshot (r : MarketingRec) : DeleteBeforeSnap :=
  { data_ref := r.data_ref, canal := r.canal, campanha := r.campanha,
    investimento := r.investimento }

/-- marketing.py lines 326-372, delete_marketing_data: load by id (404 when
absent), snapshot, db.delete, write the DELETE audit row, then one single
db.commit() (line 367) makes the removal and the audit row durable
together. -/
def delete_marketing_data (db : MarketingDb) (dataId : Nat) (actor : UserRow) (t : Nat) :
    Except MErr MarketingDb :=
  match db.records.find? (fun r => r.id == dataId) with
  | none => Except.error MErr.notFound
  | some r0 =>
      let audit := create_audit_log actor "DELETE" "marketing_data" (some dataId)
        (some (AuditPayload.deleteBefore (delete_before_snapshot r0))) none t
      Except.ok { db with
        records := db.records.filter (fun x => x.id != dataId),
        audit := db.audit ++ [audit] }

/-! ## Aggregate statistics (marketing.py lines 377-481)

Sums over the filtered record set and the derived ratios, each written
exactly with the guard of the source (`x if denom > 0 else 0`).  The
round(·, 2) applied to the response does not change a 0 and is omitted. -/

def total_investimento (rs : List MarketingRec) : ℚ :=
  (rs.map (fun (r : MarketingRec) => r.investimento)).sum

def total_impressoes (rs : List MarketingRec) : Int :=
  (rs.map (fun (r : MarketingRec) => r.impressoes)).sum

def total_cliques (rs : List MarketingRec) : Int :=
  (rs.map (fun (r : MarketingRec) => r.cliques)).sum

def total_conversoes (rs : List MarketingRec) : Int :=
  (rs.map (fun (r : MarketingRec) => r.conversoes)).sum

def total_leads (rs : List MarketingRec) : Int :=
  (rs.map (fun (r : MarketingRec) => r.leads)).sum

def total_vendas (rs : List MarketingRec) : Int :=
  (rs.map (fun (r : MarketingRec) => r.vendas)).sum

def total_receita (rs : List MarketingRec) : ℚ :=
  (rs.map (fun (r : MarketingRec) => r.receita)).sum

/-- Line 436: roi. -/
def stats_roi (rs : List MarketingRec) : ℚ :=
  if 0 < total_investimento rs then
    (total_receita rs - total_investimento rs) / total_investimento rs * 100
  else 0

/-- Line 439: cpl. -/
def stats_cpl (rs : List MarketingRec) : ℚ :=
  if 0 < total_leads rs then total_investimento rs / (total_leads rs : ℚ) else 0

/-- Line 442: taxa_conversao. -/
def stats_taxa_conversao (rs : List MarketingRec) : ℚ :=
  if 0 < total_leads rs then (total_vendas rs : ℚ) / (total_leads rs : ℚ) * 100 else 0

/-- Line 445: ctr. -/
def stats_ctr (rs : List MarketingRec) : ℚ :=
  if 0 < total_impressoes rs then
    (total_cliques rs : ℚ) / (total_impressoes rs : ℚ) * 100
  else 0

/-- Line 468: ticket_medio. -/
def stats_ticket_medio (rs : List MarketingRec) : ℚ :=
  if 0 < total_vendas rs then total_receita rs / (total_vendas rs : ℚ) else 0

/-- Lines 419-425: one group of the per-channel aggregation. -/
def canal_group (rs : List MarketingRec) (canal : String) : List MarketingRec :=
  rs.filter (fun r => r.canal == canal)

/-- Line 477: the per-channel roi (`if inv and inv > 0 else 0`; investment
sums are non-null over a concrete group, so the guard is the comparison
with 0). -/
def stats_canal_roi (rs : List MarketingRec) (canal : String) : ℚ :=
  let g := canal_group rs canal
  if 0 < total_investimento g then
    (total_receita g - total_investimento g) / total_investimento g * 100
  else 0

/-! ## Concrete fixtures shared by the theorems below -/

def diretor_user : UserRow :=
  { id := 2, email := "dir@x.com", nome := "D", cargo := none, setor := some "TI",
    role := "Diretor", password_hash := "h", ativo := true }

def gestor_marketing : UserRow :=
  { id := 3, email := "gestor@x.com", nome := "G", cargo := none,
    setor := some "Marketing", role := "Gestor", password_hash := "h", ativo := true }

def func_user : UserRow :=
  { id := 1, email := "func@x.com", nome := "F", cargo := none,
    setor := some "Marketing", role := "Funcionário", password_hash := "h", ativo := true }

def func_empty_setor : UserRow :=
  { id := 4, email := "fe@x.com", nome := "E", cargo := none, setor := some "",
    role := "Funcionário", password_hash := "h", ativo := true }

def user_unknown_role : UserRow :=
  { id := 5, email := "adm@x.com", nome := "A", cargo := none, setor := some "TI",
    role := "Admin", password_hash := "h", ativo := true }

def users_db : List UserRow := [func_user, diretor_user]

def emptyMarketingDb : MarketingDb := { records := [], audit := [], nextId := 1 }

def draft1 : MarketingDataCreate :=
  { data_ref := 20250101, canal := "Google", campanha := "X", investimento := 100 }

/-! ## C3 — sector access predicate -/

/-- C3 counterexample.  The claim says canAccessSector is true whenever the
principal's role is Manager, and for an Employee true iff the sectors are
equal case-insensitively, and false for any other role.  The AuthService
variant cited by the claim returns false for a Manager outside their own
sector; the route-level variant returns false for an Employee whose empty
sector equals the requested empty sector; and the AuthService variant raises
an uncaught ValueError on an unrecognized role instead of returning false. -/
theorem service_can_access_setor_cex :
    service_can_access_setor gestor_marketing "rh" = Except.ok false ∧
    can_access_setor func_empty_setor "" = false ∧
    service_can_access_setor user_unknown_role "marketing" = Except.error PyError.valueError :=
  ⟨by decide, by decide, by decide⟩

/-- C3 amended: the route-level can_access_setor (auth.py) grants Director
and Manager always, grants an Employee exactly when their sector is non-empty
and equals the requested sector case-insensitively, and denies every
unrecognized role.  The AuthService variant grants only Director
unconditionally; for Manager and Employee alike it grants exactly when the
user's sector equals the requested one case-insensitively, raising an
uncaught AttributeError on a null sector, and raises an uncaught ValueError
on an unrecognized role. -/
theorem can_access_setor_characterization (u : UserRow) (s : String) :
    (roleEnumOf? u.role = some RoleEnum.diretor → can_access_setor u s = true) ∧
    (roleEnumOf? u.role = some RoleEnum.gestor → can_access_setor u s = true) ∧
    (roleEnumOf? u.role = some RoleEnum.funcionario →
      (can_access_setor u s = true ↔
        ∃ sec, u.setor = some sec ∧ sec ≠ "" ∧ py_lower sec = py_lower s)) ∧
    (roleEnumOf? u.role = none → can_access_setor u s = false) ∧
    (roleEnumOf? u.role = some RoleEnum.diretor →
      service_can_access_setor u s = Except.ok true) ∧
    ((roleEnumOf? u.role = some RoleEnum.gestor ∨
        roleEnumOf? u.role = some RoleEnum.funcionario) →
      (u.setor = none →
        service_can_access_setor u s = Except.error PyError.attributeError) ∧
      (∀ sec, u.setor = some sec →
        (service_can_access_setor u s = Except.ok true ↔ py_lower sec = py_lower s))) ∧
    (roleEnumOf? u.role = none →
      service_can_access_setor u s = Except.error PyError.valueError) := by
  refine ⟨?_, ?_, ?_, ?_, ?_, ?_, ?_⟩
  · intro h; simp [can_access_setor, h]
  · intro h; simp [can_access_setor, h]
  · intro h
    cases hs : u.setor with
    | none => simp [can_access_setor, h, hs]
    | some sec =>
        by_cases he : sec = ""
        · simp [can_access_setor, h, hs, he]
        · simp [can_access_setor, h, hs, he]
  · intro h; simp [can_access_setor, h]
  · intro h; simp [service_can_access_setor, h]
  · intro h
    refine ⟨?_, ?_⟩
    · intro hs
      rcases h with h | h <;> simp [service_can_access_setor, h, hs]
    · intro sec hs
      rcases h with h | h <;> simp [service_can_access_setor, h, hs]
  · intro h; simp [service_can_access_setor, h]

/-- Closed instances of the characterization: a Manager is granted any
sector by the route-level check, and an Employee is granted a sector
differing only in case by the AuthService check. -/
theorem can_access_setor_characterization_witness :
    can_access_setor gestor_marketing "rh" = true ∧
    service_can_access_setor func_user "MARKETING" = Except.ok true := by
  constructor
  · exact (can_access_setor_characterization gestor_marketing "rh").2.1 (by decide)
  · exact (((can_access_setor_characterization func_user "MARKETING").2.2.2.2.2.1
      (Or.inr (by decide))).2 "Marketing" rfl).2 (by decide)

/-! ## C4 — role hierarchy check -/

/-- C4 counterexample.  The claim says an unrecognized role value has rank 0
and the check is denied, never an uncaught fault; AuthService.check_permission
raises an uncaught ValueError for the role string "Admin". -/
theorem check_permission_unrecognized_role_cex :
    check_permission user_unknown_role RoleEnum.funcionario =
      Except.error PyError.valueError :=
  by decide

/-- C4 amended: the route-level require_role grants access exactly when
rank(user.role) is at least rank(required) under Employee=1, Manager=2,
Director=3 with unrecognized roles at rank 0, and denies an unrecognized
role with 403 rather than faulting.  AuthService.check_permission computes
the same ranking comparison for recognized roles, but raises an uncaught
ValueError on an unrecognized role value. -/
theorem role_check_rank_characterization (u : UserRow) (required : RoleEnum) :
    ((∃ v, require_role_check required u = Except.ok v) ↔
      role_rank required ≤ spec_rank u.role) ∧
    (roleEnumOf? u.role = none →
      require_role_check required u =
        Except.error (HttpError.forbidden "Role do usuário inválida")) ∧
    (∀ r, roleEnumOf? u.role = some r →
      check_permission u required = Except.ok (decide (role_rank required ≤ role_rank r))) ∧
    (roleEnumOf? u.role = none →
      check_permission u required = Except.error PyError.valueError) := by
  refine ⟨?_, ?_, ?_, ?_⟩
  · cases h : roleEnumOf? u.role with
    | none =>
        simp [require_role_check, h, spec_rank]
        cases required <;> simp [role_rank]
    | some r =>
        cases r <;> cases required <;>
          simp [require_role_check, h, spec_rank, role_rank]
  · intro h; simp [require_role_check, h]
  · intro r h
    cases r <;> cases required <;>
      simp [check_permission, h, role_rank] <;> decide
  · intro h; simp [check_permission, h]

/-- Closed instances of the rank characterization: an Employee is denied a
Director-level requirement, a Director is granted it, and check_permission
agrees on a recognized role. -/
theorem role_check_rank_characterization_witness :
    ¬ (∃ v, require_role_check RoleEnum.diretor func_user = Except.ok v) ∧
    (∃ v, require_role_check RoleEnum.diretor diretor_user = Except.ok v) ∧
    check_permission func_user RoleEnum.diretor = Except.ok false := by
  refine ⟨?_, ?_, ?_⟩
  · intro hv
    have h := (role_check_rank_characterization func_user RoleEnum.diretor).1.mp hv
    revert h; decide
  · exact (role_check_rank_characterization diretor_user RoleEnum.diretor).1.mpr (by decide)
  · have h := (role_check_rank_characterization func_user RoleEnum.diretor).2.2.1
      RoleEnum.funcionario (by decide)
    simpa using h

/-! ## C5 — token verification -/

/-- C5 counterexample.  The claim says verifyToken always returns the claims
or a failure that distinguishes Expired, InvalidSignature and Malformed; the
code returns the single value None for all three causes, so an expired token
is indistinguishable from a malformed one. -/
theorem verify_token_failure_collapse_cex :
    verify_token TokenDecode.expired = verify_token TokenDecode.invalidSignature ∧
    verify_token TokenDecode.expired = verify_token TokenDecode.malformed ∧
    verify_token TokenDecode.expired = none :=
  ⟨rfl, rfl, rfl⟩

/-- C5 amended: verify_token never raises an uncaught exception but returns
a two-state result — the claims (with a subject present) or None, with all
failure causes collapsed to the same None; on an expired token it returns
None and get_current_user fails Unauthorized (401) rather than faulting. -/
theorem verify_token_binary_result (t : TokenDecode) (db : List UserRow) :
    (verify_token t = none ∨ ∃ p, verify_token t = some p ∧ p.sub ≠ none) ∧
    (verify_token t = none →
      get_current_user db t = Except.error (HttpError.unauthorized "Credenciais inválidas")) ∧
    (t = TokenDecode.expired →
      verify_token t = none ∧
      get_current_user db t =
        Except.error (HttpError.unauthorized "Credenciais inválidas")) := by
  refine ⟨?_, ?_, ?_⟩
  · cases t with
    | ok p =>
        cases hs : p.sub with
        | none => left; simp [verify_token, hs]
        | some e => right; exact ⟨p, by simp [verify_token, hs], by simp [hs]⟩
    | expired => left; rfl
    | invalidSignature => left; rfl
    | malformed => left; rfl
  · intro h; simp [get_current_user, h]
  · intro h; subst h; exact ⟨rfl, rfl⟩

/-- Closed instance: an expired token resolves to a 401. -/
theorem verify_token_binary_result_witness :
    verify_token TokenDecode.expired = none ∧
    get_current_user users_db TokenDecode.expired =
      Except.error (HttpError.unauthorized "Credenciais inválidas") :=
  (verify_token_binary_result TokenDecode.expired users_db).2.2 rfl

/-! ## C1 — atomicity of mutation and audit entry -/

/-- C1 counterexample.  The claim says the primary mutation and its audit
entry commit together or not at all, with no intermediate committed state.
A concrete successful create commits a first state s1 (line 129) that
already contains the persisted record and no audit entry at all; the CREATE
audit row only becomes durable with the second commit (line 141). -/
theorem create_commits_record_before_audit_cex :
    ∃ s1 s2 q r,
      create_marketing_data emptyMarketingDb [] draft1 diretor_user 1 true =
        Except.ok (s1, s2, q, r) ∧
      s1.records = [r] ∧ s1.audit = [] ∧ s2.audit ≠ [] := by
  refine ⟨_, _, _, _, rfl, ?_, ?_, ?_⟩ <;> decide

/-- C1 amended: delete commits the record removal and its DELETE audit row
in one atomic transaction, but create and update each commit the primary
mutation first and the audit row in a separate second transaction, so
between the two commits there is a committed state holding the record
change without its audit entry. -/
theorem audit_commit_structure (db : MarketingDb) (q : List KpiJob)
    (d : MarketingDataCreate) (p : MarketingDataUpdate) (u : UserRow)
    (t dataId : Nat) (eok : Bool) :
    (check_duplicate db d.data_ref d.canal d.campanha none = false →
      ∃ s1 s2 q2 r, create_marketing_data db q d u t eok = Except.ok (s1, s2, q2, r) ∧
        r ∈ s1.records ∧ s1.audit = db.audit ∧ s2.records = s1.records ∧
        ∃ e, s2.audit = db.audit ++ [e] ∧ e.acao = "CREATE") ∧
    (∀ r0, db.records.find? (fun x => x.id == dataId) = some r0 →
      ∃ s1 s2 r1, update_marketing_data db dataId p u t = Except.ok (s1, s2, r1) ∧
        s1.audit = db.audit ∧ r1 ∈ s1.records ∧ s2.records = s1.records ∧
        ∃ e, s2.audit = db.audit ++ [e] ∧ e.acao = "UPDATE") ∧
    (∀ r0, db.records.find? (fun x => x.id == dataId) = some r0 →
      ∃ s e, delete_marketing_data db dataId u t = Except.ok s ∧
        (∀ x ∈ s.records, x.id ≠ dataId) ∧
        s.audit = db.audit ++ [e] ∧ e.acao = "DELETE" ∧ e.dados_antes ≠ none) := by
  refine ⟨?_, ?_, ?_⟩
  · intro h
    simp only [create_marketing_data, h, Bool.false_eq_true, if_false,
      storage_insert, idx_marketing_unique, Bool.false_and, ite_false]
    exact ⟨_, _, _, _, rfl, by simp, rfl, rfl, _, rfl, rfl⟩
  · intro r0 h
    have hmem : r0 ∈ db.records := List.mem_of_find?_eq_some h
    have hid := List.find?_some h
    simp only [update_marketing_data, h]
    refine ⟨_, _, _, rfl, rfl, ?_, rfl, _, rfl, rfl⟩
    exact List.mem_map.mpr ⟨r0, hmem, by simp [hid]⟩
  · intro r0 h
    simp only [delete_marketing_data, h]
    refine ⟨_, _, rfl, ?_, rfl, rfl, by simp [create_audit_log]⟩
    intro x hx
    have := (List.mem_filter.mp hx).2
    simpa using this

/-- Closed instance of the two-commit structure of create. -/
theorem audit_commit_structure_witness :
    ∃ s1 s2 q2 r,
      create_marketing_data emptyMarketingDb [] draft1 diretor_user 1 true =
        Except.ok (s1, s2, q2, r) ∧
      r ∈ s1.records ∧ s1.audit = emptyMarketingDb.audit ∧ s2.records = s1.records ∧
      ∃ e, s2.audit = emptyMarketingDb.audit ++ [e] ∧ e.acao = "CREATE" :=
  (audit_commit_structure emptyMarketingDb [] draft1 {} diretor_user 1 0 true).1 (by decide)

/-! ## C2 — natural-key uniqueness under concurrency -/

def rec1 : MarketingRec :=
  { id := 1, data_ref := 20250101, canal := "Google", campanha := "X",
    investimento := 100, impressoes := 0, cliques := 0, conversoes := 0,
    leads := 0, vendas := 0, receita := 0, user_id := 2, created_at := 1,
    updated_at := 1 }

def rec2 : MarketingRec :=
  { rec1 with id := 2, user_id := 3, created_at := 2, updated_at := 2 }

/-- C2: sequentially the second create of the key (20250101, Google, X) does
fail Conflict through the application pre-check, but the storage layer
enforces nothing: idx_marketing_unique is declared without unique=True, so
in the concurrent interleaving in which both calls pass the pre-check on the
same committed state before either inserts, both inserts are accepted and
two rows with the same natural-key tuple persist. -/
theorem concurrent_create_duplicate_bug :
    idx_marketing_unique.unique = false ∧
    check_duplicate emptyMarketingDb draft1.data_ref draft1.canal draft1.campanha none
      = false ∧
    (∃ db1 db2,
      storage_insert idx_marketing_unique emptyMarketingDb rec1 = some db1 ∧
      storage_insert idx_marketing_unique db1 rec2 = some db2 ∧
      sameNaturalKey rec1 rec2 = true ∧
      (db2.records.filter (fun x => sameNaturalKey x rec1)).length = 2) ∧
    (∃ s1 s2 q r,
      create_marketing_data emptyMarketingDb [] draft1 diretor_user 1 true =
        Except.ok (s1, s2, q, r) ∧
      create_marketing_data s2 q draft1 gestor_marketing 2 true =
        Except.error MErr.conflict) := by
  refine ⟨rfl, by decide, ⟨_, _, rfl, rfl, by decide, by decide⟩,
    ⟨_, _, _, _, rfl, by decide⟩⟩

/-! ## C9 — enqueue failure is swallowed -/

/-- C9: for a create whose persistence succeeds, a failure of the recompute
job enqueue changes only the Redis queue; both committed database states,
the success outcome and the response record are identical with and without
the failure, so nothing is rolled back and the create still succeeds. -/
theorem create_enqueue_failure_swallowed (db : MarketingDb) (q : List KpiJob)
    (d : MarketingDataCreate) (u : UserRow) (t : Nat)
    (h : check_duplicate db d.data_ref d.canal d.campanha none = false) :
    ∃ s1 s2 r,
      create_marketing_data db q d u t false = Except.ok (s1, s2, q, r) ∧
      create_marketing_data db q d u t true =
        Except.ok (s1, s2,
          q ++ [add_kpi_job "marketing" "calculate" (some r.id) (some r.data_ref)
            (some u.id)], r) ∧
      r ∈ s1.records ∧ ∃ e, s2.audit = db.audit ++ [e] := by
  simp only [create_marketing_data, h, Bool.false_eq_true, if_false,
    storage_insert, idx_marketing_unique, Bool.false_and, ite_false]
  exact ⟨_, _, _, rfl, rfl, by simp, _, rfl⟩

/-- Closed instance: the concrete create succeeds identically with a failing
and with a working queue. -/
theorem create_enqueue_failure_swallowed_witness :
    ∃ s1 s2 r,
      create_marketing_data emptyMarketingDb [] draft1 diretor_user 1 false =
        Except.ok (s1, s2, [], r) ∧
      create_marketing_data emptyMarketingDb [] draft1 diretor_user 1 true =
        Except.ok (s1, s2,
          [] ++ [add_kpi_job "marketing" "calculate" (some r.id) (some r.data_ref)
            (some diretor_user.id)], r) ∧
      r ∈ s1.records ∧ ∃ e, s2.audit = emptyMarketingDb.audit ++ [e] :=
  create_enqueue_failure_swallowed emptyMarketingDb [] draft1 diretor_user 1 (by decide)

/-! ## C6 — deactivation -/

/-- C6: AuthService.deactivate_user diverges from the claim at concrete
inputs.  A non-Director self-deactivation hits the Director permission check
first and fails permission-denied, not the self-deactivation error (only a
Director self-deactivation reaches the self check); and a successful
deactivation assigns is_active=False, which is not a mapped column of
models.User (the column is named ativo), so the commit leaves the users
table unchanged — the target's ativo stays true and the target still
authenticates afterwards. -/
theorem deactivate_user_divergence_bug :
    deactivate_user users_db 1 func_user =
      (DeactivateOutcome.permissionDenied, users_db) ∧
    deactivate_user users_db 2 diretor_user =
      (DeactivateOutcome.selfForbidden, users_db) ∧
    deactivate_user users_db 1 diretor_user =
      (DeactivateOutcome.success { row := func_user, is_active := false }, users_db) ∧
    func_user.ativo = true ∧
    get_current_user users_db (TokenDecode.ok { sub := some "func@x.com", role := none })
      = Except.ok func_user := by
  refine ⟨?_, ?_, ?_, ?_, ?_⟩ <;> decide

/-! ## C7 — zero-denominator guards in the statistics -/

/-- C7: every derived ratio of get_marketing_stats evaluates to 0 whenever
its denominator sums to 0 — cost per lead and conversion rate when the leads
sum is 0, roi when the investment sum is 0, ctr when the impressions sum is
0, average ticket when the sales sum is 0, and the per-channel roi when that
channel's investment sum is 0 — and the guarded definitions never divide in
that case. -/
theorem stats_zero_denominator_guards (rs : List MarketingRec) :
    (total_leads rs = 0 → stats_cpl rs = 0 ∧ stats_taxa_conversao rs = 0) ∧
    (total_investimento rs = 0 → stats_roi rs = 0) ∧
    (total_impressoes rs = 0 → stats_ctr rs = 0) ∧
    (total_vendas rs = 0 → stats_ticket_medio rs = 0) ∧
    (∀ c, total_investimento (canal_group rs c) = 0 → stats_canal_roi rs c = 0) := by
  refine ⟨?_, ?_, ?_, ?_, ?_⟩
  · intro h
    constructor
    · simp [stats_cpl, h]
    · simp [stats_taxa_conversao, h]
  · intro h; simp [stats_roi, h]
  · intro h; simp [stats_ctr, h]
  · intro h; simp [stats_ticket_medio, h]
  · intro c h; simp [stats_canal_roi, h]

/-- Closed instance: a record set with 100 of investment and zero leads
yields cost per lead 0, not a division fault. -/
theorem stats_zero_denominator_guards_witness :
    stats_cpl [rec1] = 0 ∧ stats_taxa_conversao [rec1] = 0 ∧ stats_roi [] = 0 ∧
    stats_ctr [rec1] = 0 ∧ stats_ticket_medio [rec1] = 0 ∧
    stats_canal_roi [rec1] "Bing" = 0 := by
  have h := stats_zero_denominator_guards [rec1]
  exact ⟨(h.1 (by decide)).1, (h.1 (by decide)).2,
    (stats_zero_denominator_guards []).2.1 rfl, h.2.2.1 (by decide),
    h.2.2.2.1 (by decide), h.2.2.2.2 "Bing" rfl⟩

/-! ## C8 — partial-update frame and single UPDATE audit entry -/

/-- C8: update applies exactly the fields present in the patch; every field
absent from the patch, and the reference date, id, owner and creation time,
keep their prior value; updated_at is stamped; records with other ids are
untouched; and the call appends exactly one audit entry, with action
UPDATE. -/
theorem update_partial_frame_and_single_audit (db : MarketingDb) (dataId : Nat)
    (p : MarketingDataUpdate) (u : UserRow) (t : Nat) (r0 : MarketingRec)
    (h : db.records.find? (fun x => x.id == dataId) = some r0) :
    ∃ s1 s2 r1, update_marketing_data db dataId p u t = Except.ok (s1, s2, r1) ∧
      (∀ v, p.canal = some v → r1.canal = v) ∧
      (p.canal = none → r1.canal = r0.canal) ∧
      (∀ v, p.campanha = some v → r1.campanha = v) ∧
      (p.campanha = none → r1.campanha = r0.campanha) ∧
      (∀ v, p.investimento = some v → r1.investimento = v) ∧
      (p.investimento = none → r1.investimento = r0.investimento) ∧
      (∀ v, p.impressoes = some v → r1.impressoes = v) ∧
      (p.impressoes = none → r1.impressoes = r0.impressoes) ∧
      (∀ v, p.cliques = some v → r1.cliques = v) ∧
      (p.cliques = none → r1.cliques = r0.cliques) ∧
      (∀ v, p.conversoes = some v → r1.conversoes = v) ∧
      (p.conversoes = none → r1.conversoes = r0.conversoes) ∧
      (∀ v, p.leads = some v → r1.leads = v) ∧
      (p.leads = none → r1.leads = r0.leads) ∧
      (∀ v, p.vendas = some v → r1.vendas = v) ∧
      (p.vendas = none → r1.vendas = r0.vendas) ∧
      (∀ v, p.receita = some v → r1.receita = v) ∧
      (p.receita = none → r1.receita = r0.receita) ∧
      r1.data_ref = r0.data_ref ∧ r1.id = r0.id ∧ r1.user_id = r0.user_id ∧
      r1.created_at = r0.created_at ∧ r1.updated_at = t ∧
      (∀ x ∈ db.records, x.id ≠ dataId → x ∈ s2.records) ∧
      (∃ e, s2.audit = db.audit ++ [e] ∧ e.acao = "UPDATE" ∧
        e.registro_id = some dataId ∧ e.user_id = u.id) := by
  simp only [update_marketing_data, h]
  refine ⟨_, _, _, rfl, ?_⟩
  refine ⟨fun v hv => by simp [apply_update_fields, hv],
    fun hn => by simp [apply_update_fields, hn],
    fun v hv => by simp [apply_update_fields, hv],
    fun hn => by simp [apply_update_fields, hn],
    fun v hv => by simp [apply_update_fields, hv],
    fun hn => by simp [apply_update_fields, hn],
    fun v hv => by simp [apply_update_fields, hv],
    fun hn => by simp [apply_update_fields, hn],
    fun v hv => by simp [apply_update_fields, hv],
    fun hn => by simp [apply_update_fields, hn],
    fun v hv => by simp [apply_update_fields, hv],
    fun hn => by simp [apply_update_fields, hn],
    fun v hv => by simp [apply_update_fields, hv],
    fun hn => by simp [apply_update_fields, hn],
    fun v hv => by simp [apply_update_fields, hv],
    fun hn => by simp [apply_update_fields, hn],
    fun v hv => by simp [apply_update_fields, hv],
    fun hn => by simp [apply_update_fields, hn],
    by simp [apply_update_fields], by simp [apply_update_fields],
    by simp [apply_update_fields], by simp [apply_update_fields],
    by simp [apply_update_fields],
    fun x hx hne => List.mem_map.mpr ⟨x, hx, by simp [hne]⟩,
    _, rfl, rfl, rfl, rfl⟩

def mdb1 : MarketingDb := { records := [rec1], audit := [], nextId := 2 }

def patch_inv : MarketingDataUpdate := { investimento := some 500 }

/-- Closed instance: patching only investimento to 500 on the concrete
record leaves canal and leads identical, stamps updated_at, and appends one
UPDATE audit entry. -/
theorem update_partial_frame_witness :
    ∃ s1 s2 r1, update_marketing_data mdb1 1 patch_inv diretor_user 5 =
      Except.ok (s1, s2, r1) ∧ r1.investimento = 500 ∧ r1.canal = rec1.canal ∧
      r1.leads = rec1.leads ∧ r1.data_ref = rec1.data_ref ∧ r1.updated_at = 5 ∧
      ∃ e, s2.audit = mdb1.audit ++ [e] ∧ e.acao = "UPDATE" := by
  obtain ⟨s1, s2, r1, heq, _, hcanal, _, _, hinv, _, _, _, _, _, _, _, _, hleads,
      _, _, _, _, hdref, _, _, _, hupd, _, e, he1, he2, _, _⟩ :=
    update_partial_frame_and_single_audit mdb1 1 patch_inv diretor_user 5 rec1 rfl
  exact ⟨s1, s2, r1, heq, hinv 500 rfl, hcanal rfl, hleads rfl, hdref, hupd,
    e, he1, he2⟩

/-! ## C10 — update performs no natural-key duplicate check -/

def rec2b : MarketingRec := { rec1 with id := 2, canal := "Bing", campanha := "Y" }

def mdb2 : MarketingDb := { records := [rec1, rec2b], audit := [], nextId := 3 }

def patch_key : MarketingDataUpdate := { canal := some "Google", campanha := some "X" }

/-- C10: update never consults check_duplicate — its only failure is
NotFound, never Conflict — and a patch carrying canal and campanha is
written as-is, so updating the (Bing, Y) record to (Google, X) leaves two
persisted records with the natural key (20250101, Google, X) even though a
create of that same tuple on the resulting state fails Conflict. -/
theorem update_no_duplicate_check :
    (∀ db dataId p u t,
      (∃ out, update_marketing_data db dataId p u t = Except.ok out) ∨
      update_marketing_data db dataId p u t = Except.error MErr.notFound) ∧
    (∃ s1 s2 r1,
      update_marketing_data mdb2 2 patch_key diretor_user 9 = Except.ok (s1, s2, r1) ∧
      r1.canal = "Google" ∧ r1.campanha = "X" ∧
      (s2.records.filter (fun x => sameNaturalKey x rec1)).length = 2 ∧
      check_duplicate s2 rec1.data_ref rec1.canal rec1.campanha none = true ∧
      create_marketing_data s2 [] draft1 diretor_user 10 true =
        Except.error MErr.conflict) := by
  constructor
  · intro db dataId p u t
    cases h : db.records.find? (fun x => x.id == dataId) with
    | none => right; simp [update_marketing_data, h]
    | some r0 =>
        left
        simp only [update_marketing_data, h]
        exact ⟨_, rfl⟩
  · exact ⟨_, _, _, rfl, by decide, by decide, by decide, by decide, by decide⟩
